import Mathlib

set_option maxRecDepth 8000

/-!
Shallow embedding of the WS2812 PWM driver crates
(`strip/src/ws2812_pwm.rs` and `embassy-nrf-ws2812-pwm/src/lib.rs`).

Machine integers are modelled as `Nat` with explicit `% 2 ^ w` where
overflow is possible; Rust panics (`assert!`, `.expect`) are modelled as
`Option.none`; the fallible hardware trigger (`seq.start`) is modelled by
a boolean oracle passed to the write functions.
-/

/-- WS2812 0-bit high time in ns (`T0H_NS`). -/
def T0H_NS : Nat := 400

/-- WS2812 1-bit high time in ns (`T1H_NS`). -/
def T1H_NS : Nat := 800

/-- WS2812 total frame time in ns (`FRAME_NS`). -/
def FRAME_NS : Nat := 1250

/-- WS2812 frame reset time in µs (`RESET_TIME`). -/
def RESET_TIME : Nat := 270

/-- PWM clock in MHz (`PWM_CLOCK`). -/
def PWM_CLOCK : Nat := 16

/-- Size of the RGB color definition (`RGB_SIZE`). -/
def RGB_SIZE : Nat := 24

/-- Rust source: `const fn to_ticks(ns: u32) -> u32 { (ns * PWM_CLOCK + 500) / 1000 }`,
with u32 wrap-around made explicit. -/
def to_ticks (ns : Nat) : Nat :=
  ((ns * PWM_CLOCK) % 2 ^ 32 + 500) % 2 ^ 32 / 1000

/-- Half-up rounding of `num / den`, following the wording of the spec
(`round(ns × clock_ticks_per_us / 1000)`, half-up): round up exactly when
the remainder is at least half the divisor. -/
def roundHalfUp (num den : Nat) : Nat :=
  if den ≤ num % den * 2 then num / den + 1 else num / den

/-- Rust source: `const RESET_TICKS: u32 = to_ticks(RESET_TIME * 1000);` -/
def RESET_TICKS : Nat := to_ticks (RESET_TIME * 1000)

/-- Rust source: `const BITS: [u16; 2] = [to_ticks(T0H_NS) as u16 | 0x8000,
to_ticks(T1H_NS) as u16 | 0x8000];` -/
def BITS : List Nat :=
  [to_ticks T0H_NS % 2 ^ 16 ||| 0x8000, to_ticks T1H_NS % 2 ^ 16 ||| 0x8000]

/-- Rust source: `const PWM_PERIOD: u16 = to_ticks(FRAME_NS) as u16;` -/
def PWM_PERIOD : Nat := to_ticks FRAME_NS % 2 ^ 16

/-- The name the spec gives to `BITS[0]`, the code emitted for a 0 bit. -/
def ZERO_CODE : Nat := BITS.getD 0 0

/-- The name the spec gives to `BITS[1]`, the code emitted for a 1 bit. -/
def ONE_CODE : Nat := BITS.getD 1 0

/-- The `rgb::RGB8` color triplet; each channel is a u8, modelled as
`Fin 256`. -/
structure RGB8 where
  r : Fin 256
  g : Fin 256
  b : Fin 256
deriving DecidableEq, Repr

/-- Rust source: `let color = ((item.g as u32) << 16) | ((item.r as u32) << 8) |
(item.b as u32);` (all values < 2^24, so no u32 truncation arises). -/
def color_word (c : RGB8) : Nat :=
  ((c.g.val <<< 16) ||| (c.r.val <<< 8)) ||| c.b.val

/-- The inner loop of `take_buffer` / `write_buffer`: `for (i, loc) in
locs.iter_mut().enumerate() { let b = (color >> (24 - i - 1)) & 1;
*loc = BITS[b as usize]; }` — every slot of the chunk is overwritten,
the old value of the slot is unused, so the chunk is the map over positions. -/
def encodeChunk (c : RGB8) (locs : List Nat) : List Nat :=
  (List.range locs.length).map fun i =>
    BITS.getD ((color_word c >>> (24 - i - 1)) &&& 1) 0

/-- The outer loop shared verbatim by `Ws2812::take_buffer` (strip crate)
and `Ws2812::write_buffer` (embassy-nrf-ws2812-pwm crate):
`for (item, locs) in iterator.into_iter().zip(buffer.chunks_mut(RGB_SIZE))`.
The zip stops at the shorter side: left-over colors are dropped, left-over
chunks keep their previous content. -/
def encodeInto : List RGB8 → List Nat → List Nat
  | [], buf => buf
  | _ :: _, [] => []
  | c :: cs, x :: xs =>
      encodeChunk c ((x :: xs).take RGB_SIZE) ++ encodeInto cs ((x :: xs).drop RGB_SIZE)

/-- Decoding one pulse code, following the spec: ONE_CODE ↦ bit 1,
ZERO_CODE ↦ bit 0. -/
def decodeBit (x : Nat) : Nat :=
  if x = ONE_CODE then 1 else 0

/-- Recompose a most-significant-bit-first bit list into a byte. -/
def byteFromBits (bits : List Nat) : Nat :=
  bits.foldl (fun a b => 2 * a + b) 0

/-- Decoding one 24-slot chunk, following the spec: slots 0–7 are the
green channel, 8–15 red, 16–23 blue, each most-significant-bit first.
Returned as an (r, g, b) value triple. -/
def decodeLED (slots : List Nat) : Nat × Nat × Nat :=
  let bits := slots.map decodeBit
  (byteFromBits ((bits.drop 8).take 8),
   byteFromBits (bits.take 8),
   byteFromBits ((bits.drop 16).take 8))

/-- Decoding the first `L` 24-slot chunks of a buffer. -/
def decodeBuf : Nat → List Nat → List (Nat × Nat × Nat)
  | 0, _ => []
  | l + 1, buf => decodeLED (buf.take 24) :: decodeBuf l (buf.drop 24)

/-- The value triple of a color, the reference point for decoding. -/
def rgbVal (c : RGB8) : Nat × Nat × Nat :=
  (c.r.val, c.g.val, c.b.val)

/-- Model of the opaque `embassy_nrf::pwm::Error` returned when
`seq.start` rejects the trigger. -/
inductive PwmError where
  | triggerRejected
deriving DecidableEq, Repr

/-- The fields of `pwm::SequenceConfig` that the driver sets:
`conf.refresh = 0; conf.end_delay = RESET_TICKS;`. -/
structure SeqConfig where
  refresh : Nat
  end_delay : Nat
deriving DecidableEq, Repr

/-- Rust source: `fn sequence_config(&self)` — identical in both crates. -/
def sequence_config : SeqConfig :=
  { refresh := 0, end_delay := RESET_TICKS }

/-- Observable effects of one write call: the buffer handed to
`SingleSequencer::new`, the sequence config, the repeat count of
`SingleSequenceMode::Times(1)`, and the microseconds waited (none when
the trigger was rejected, since the early `?` return skips the wait). -/
structure Attempt where
  buffer : List Nat
  config : SeqConfig
  times : Nat
  waited_us : Option Nat
deriving DecidableEq, Repr

namespace Strip

/-- Rust source: `pub struct Ws2812<Pwm, const N: usize> { num_leds: usize,
pwm: Option<SequencePwm>, buf: Option<DmaBuffer<N>> }`. The hardware
handle carries no observable data, so it is modelled as `Option Unit`;
the `DmaBuffer<N>` as a `List Nat` of length N. -/
structure Ws2812 where
  num_leds : Nat
  pwm : Option Unit
  buf : Option (List Nat)
deriving DecidableEq, Repr

/-- Rust source `Ws2812::new`: asserts `N % RGB_SIZE == 0` (panic → `none`), then
creates the PWM peripheral (`.expect` — the hardware outcome is the
`pwmOk` oracle; failure panics → `none`), sets `num_leds = N / RGB_SIZE`
and a zeroed buffer `DmaBuffer([0; N])`. -/
def new (n : Nat) (pwmOk : Bool) : Option Ws2812 :=
  if n % RGB_SIZE = 0 then
    if pwmOk then
      some { num_leds := n / RGB_SIZE, pwm := some (), buf := some (List.replicate n 0) }
    else none
  else none

/-- Rust source: `fn delay_micros(&self) -> u64`: `num_bits = num_leds * RGB_SIZE`
(usize, 32-bit target), `active_time_ns = num_bits as u32 * FRAME_NS`
(u32), `/ 1000`, `+ RESET_TIME` (u32), `as u64`. -/
def delay_micros (num_leds : Nat) : Nat :=
  (num_leds * RGB_SIZE % 2 ^ 32 * FRAME_NS % 2 ^ 32 / 1000 + RESET_TIME) % 2 ^ 32

/-- Rust source: `fn take_buffer(&mut self, iterator)`: takes the buffer out of
`self.buf` (panics if absent), encodes the colors into it, returns it. -/
def take_buffer (colors : List RGB8) (s : Ws2812) : Option (List Nat × Ws2812) :=
  match s.buf with
  | none => none
  | some b => some (encodeInto colors b, { s with buf := none })

/-- The blocking `SmartLedsWrite::write` of the strip crate: takes the
buffer (encoding into it), takes the PWM handle, builds the sequencer and
triggers it; on rejection the `?` returns the error with both locals
dropped; on success waits `delay_micros` and stores handle and buffer
back. Result: outcome, final state, observable effects. -/
def writeSync (trigger : Bool) (colors : List RGB8) (s : Ws2812) :
    Option (Except PwmError Unit × Ws2812 × Attempt) :=
  match take_buffer colors s with
  | none => none
  | some (buffer, s1) =>
    match s1.pwm with
    | none => none
    | some _ =>
      let att : Attempt :=
        { buffer := buffer, config := sequence_config, times := 1,
          waited_us := if trigger then some (delay_micros s1.num_leds) else none }
      if trigger then
        some (Except.ok (), { s1 with pwm := some (), buf := some buffer }, att)
      else
        some (Except.error PwmError.triggerRejected, { s1 with pwm := none }, att)

/-- The suspending `SmartLedsWriteAsync::write` of the strip crate — the
same steps, with `Timer::after_micros(...).await` in place of
`block_for(...)`. -/
def writeAsync (trigger : Bool) (colors : List RGB8) (s : Ws2812) :
    Option (Except PwmError Unit × Ws2812 × Attempt) :=
  match take_buffer colors s with
  | none => none
  | some (buffer, s1) =>
    match s1.pwm with
    | none => none
    | some _ =>
      let att : Attempt :=
        { buffer := buffer, config := sequence_config, times := 1,
          waited_us := if trigger then some (delay_micros s1.num_leds) else none }
      if trigger then
        some (Except.ok (), { s1 with pwm := some (), buf := some buffer }, att)
      else
        some (Except.error PwmError.triggerRejected, { s1 with pwm := none }, att)

end Strip

namespace Embassy

/-- Rust source: `pub struct Ws2812<const N: usize> { pwm: Option<SequencePwm>,
buf: ... }` where buf is a static mutable array reference of length N —
the buffer is always present. -/
structure Ws2812 where
  pwm : Option Unit
  buf : List Nat
deriving DecidableEq, Repr

/-- Rust source `Ws2812::new`: asserts `N.is_multiple_of(RGB_SIZE)` (panic → `none`),
creates the PWM peripheral (`pwmOk` oracle), binds the caller-supplied
static buffer. -/
def new (pwmOk : Bool) (buf : List Nat) : Option Ws2812 :=
  if buf.length % RGB_SIZE = 0 then
    if pwmOk then some { pwm := some (), buf := buf } else none
  else none

/-- Rust source: `fn delay_micros(&self) -> u64`: `active_time_ns = N as u32 * FRAME_NS`
(u32), `/ 1000`, `+ RESET_TIME` (u32), `as u64`. -/
def delay_micros (n : Nat) : Nat :=
  (n % 2 ^ 32 * FRAME_NS % 2 ^ 32 / 1000 + RESET_TIME) % 2 ^ 32

/-- Rust source: `fn write_buffer(&mut self, iterator)`: encodes the colors into
`self.buf` in place. -/
def write_buffer (colors : List RGB8) (s : Ws2812) : Ws2812 :=
  { s with buf := encodeInto colors s.buf }

/-- The blocking `SmartLedsWrite::write` of the embassy crate: encodes in
place, takes the PWM handle (panic → `none`), triggers; on rejection the
`?` returns with the handle dropped and the buffer (a plain field) still
holding the encoded frame; on success waits `delay_micros` and stores the
handle back. -/
def writeSync (trigger : Bool) (colors : List RGB8) (s : Ws2812) :
    Option (Except PwmError Unit × Ws2812 × Attempt) :=
  let s1 := write_buffer colors s
  match s1.pwm with
  | none => none
  | some _ =>
    let att : Attempt :=
      { buffer := s1.buf, config := sequence_config, times := 1,
        waited_us := if trigger then some (delay_micros s1.buf.length) else none }
    if trigger then
      some (Except.ok (), { s1 with pwm := some () }, att)
    else
      some (Except.error PwmError.triggerRejected, { s1 with pwm := none }, att)

/-- The suspending `SmartLedsWriteAsync::write` of the embassy crate —
the same steps, with `Timer::after_micros(...).await` in place of
`block_for(...)`. -/
def writeAsync (trigger : Bool) (colors : List RGB8) (s : Ws2812) :
    Option (Except PwmError Unit × Ws2812 × Attempt) :=
  let s1 := write_buffer colors s
  match s1.pwm with
  | none => none
  | some _ =>
    let att : Attempt :=
      { buffer := s1.buf, config := sequence_config, times := 1,
        waited_us := if trigger then some (delay_micros s1.buf.length) else none }
    if trigger then
      some (Except.ok (), { s1 with pwm := some () }, att)
    else
      some (Except.error PwmError.triggerRejected, { s1 with pwm := none }, att)

end Embassy

/-! ### Helper lemmas about the encoder -/

theorem encodeChunk_length (c : RGB8) (locs : List Nat) :
    (encodeChunk c locs).length = locs.length := by
  simp [encodeChunk]

theorem encodeInto_length (colors : List RGB8) (buf : List Nat) :
    (encodeInto colors buf).length = buf.length := by
  induction colors generalizing buf with
  | nil => rfl
  | cons c cs ih =>
    cases buf with
    | nil => rfl
    | cons x xs =>
      simp [encodeInto, encodeChunk_length, ih]
      omega

theorem encodeInto_cons (c : RGB8) (cs : List RGB8) (buf : List Nat)
    (hb : buf ≠ []) :
    encodeInto (c :: cs) buf =
      encodeChunk c (buf.take RGB_SIZE) ++ encodeInto cs (buf.drop RGB_SIZE) := by
  cases buf with
  | nil => exact absurd rfl hb
  | cons x xs => rfl

theorem decodeBit_slot (w k : Nat) :
    decodeBit (BITS.getD ((w >>> k) &&& 1) 0) = (w.testBit k).toNat := by
  rw [Nat.and_one_is_mod, Nat.shiftRight_eq_div_pow, Nat.testBit_to_div_mod]
  rcases Nat.mod_two_eq_zero_or_one (w / 2 ^ k) with h | h <;> rw [h] <;> decide

theorem lt_two_pow_of_le (x n k : Nat) (hx : x < 2 ^ n) (hk : n ≤ k) :
    x < 2 ^ k := by
  have h : (2 : Nat) ^ n ≤ 2 ^ k := Nat.pow_le_pow_right (by norm_num) hk
  omega

theorem color_word_testBit_g (c : RGB8) (k : Nat) (hk : 16 ≤ k) :
    (color_word c).testBit k = c.g.val.testBit (k - 16) := by
  have hb : c.b.val < 2 ^ k := lt_two_pow_of_le _ 8 _ c.b.isLt (by omega)
  have hr : c.r.val < 2 ^ (k - 8) := lt_two_pow_of_le _ 8 _ c.r.isLt (by omega)
  simp [color_word, Nat.testBit_lor, Nat.testBit_shiftLeft, hk,
    Nat.testBit_lt_two_pow hb, Nat.testBit_lt_two_pow hr,
    (show 8 ≤ k by omega)]

theorem color_word_testBit_r (c : RGB8) (k : Nat) (h1 : 8 ≤ k) (h2 : k < 16) :
    (color_word c).testBit k = c.r.val.testBit (k - 8) := by
  have hb : c.b.val < 2 ^ k := lt_two_pow_of_le _ 8 _ c.b.isLt (by omega)
  simp [color_word, Nat.testBit_lor, Nat.testBit_shiftLeft, h1,
    Nat.testBit_lt_two_pow hb, (show ¬ 16 ≤ k by omega)]

theorem color_word_testBit_b (c : RGB8) (k : Nat) (h2 : k < 8) :
    (color_word c).testBit k = c.b.val.testBit k := by
  simp [color_word, Nat.testBit_lor, Nat.testBit_shiftLeft,
    (show ¬ 16 ≤ k by omega), (show ¬ 8 ≤ k by omega)]

theorem byteFromBits_testBit : ∀ x : Fin 256,
    byteFromBits [(x.val.testBit 7).toNat, (x.val.testBit 6).toNat,
      (x.val.testBit 5).toNat, (x.val.testBit 4).toNat, (x.val.testBit 3).toNat,
      (x.val.testBit 2).toNat, (x.val.testBit 1).toNat, (x.val.testBit 0).toNat] =
      x.val := by decide

theorem encodeChunk_expand (c : RGB8) (locs : List Nat)
    (h : locs.length = RGB_SIZE) :
    encodeChunk c locs =
      [BITS.getD ((color_word c >>> 23) &&& 1) 0, BITS.getD ((color_word c >>> 22) &&& 1) 0,
       BITS.getD ((color_word c >>> 21) &&& 1) 0, BITS.getD ((color_word c >>> 20) &&& 1) 0,
       BITS.getD ((color_word c >>> 19) &&& 1) 0, BITS.getD ((color_word c >>> 18) &&& 1) 0,
       BITS.getD ((color_word c >>> 17) &&& 1) 0, BITS.getD ((color_word c >>> 16) &&& 1) 0,
       BITS.getD ((color_word c >>> 15) &&& 1) 0, BITS.getD ((color_word c >>> 14) &&& 1) 0,
       BITS.getD ((color_word c >>> 13) &&& 1) 0, BITS.getD ((color_word c >>> 12) &&& 1) 0,
       BITS.getD ((color_word c >>> 11) &&& 1) 0, BITS.getD ((color_word c >>> 10) &&& 1) 0,
       BITS.getD ((color_word c >>> 9) &&& 1) 0, BITS.getD ((color_word c >>> 8) &&& 1) 0,
       BITS.getD ((color_word c >>> 7) &&& 1) 0, BITS.getD ((color_word c >>> 6) &&& 1) 0,
       BITS.getD ((color_word c >>> 5) &&& 1) 0, BITS.getD ((color_word c >>> 4) &&& 1) 0,
       BITS.getD ((color_word c >>> 3) &&& 1) 0, BITS.getD ((color_word c >>> 2) &&& 1) 0,
       BITS.getD ((color_word c >>> 1) &&& 1) 0, BITS.getD ((color_word c >>> 0) &&& 1) 0] := by
  unfold encodeChunk
  rw [h]
  rfl

theorem decodeLED_encodeChunk (c : RGB8) (locs : List Nat)
    (h : locs.length = RGB_SIZE) :
    decodeLED (encodeChunk c locs) = rgbVal c := by
  rw [encodeChunk_expand c locs h]
  simp only [decodeLED, List.map_cons, List.map_nil, List.take_succ_cons,
    List.take_zero, List.drop_succ_cons, List.drop_zero]
  simp only [decodeBit_slot]
  rw [color_word_testBit_b c 0 (by omega), color_word_testBit_b c 1 (by omega),
    color_word_testBit_b c 2 (by omega), color_word_testBit_b c 3 (by omega),
    color_word_testBit_b c 4 (by omega), color_word_testBit_b c 5 (by omega),
    color_word_testBit_b c 6 (by omega), color_word_testBit_b c 7 (by omega),
    color_word_testBit_r c 8 (by omega) (by omega),
    color_word_testBit_r c 9 (by omega) (by omega),
    color_word_testBit_r c 10 (by omega) (by omega),
    color_word_testBit_r c 11 (by omega) (by omega),
    color_word_testBit_r c 12 (by omega) (by omega),
    color_word_testBit_r c 13 (by omega) (by omega),
    color_word_testBit_r c 14 (by omega) (by omega),
    color_word_testBit_r c 15 (by omega) (by omega),
    color_word_testBit_g c 16 (by omega), color_word_testBit_g c 17 (by omega),
    color_word_testBit_g c 18 (by omega), color_word_testBit_g c 19 (by omega),
    color_word_testBit_g c 20 (by omega), color_word_testBit_g c 21 (by omega),
    color_word_testBit_g c 22 (by omega), color_word_testBit_g c 23 (by omega)]
  simp only [rgbVal, Prod.mk.injEq]
  exact ⟨byteFromBits_testBit c.r, byteFromBits_testBit c.g, byteFromBits_testBit c.b⟩

theorem decodeBuf_encodeInto (colors : List RGB8) (buf : List Nat)
    (h : RGB_SIZE * colors.length ≤ buf.length) :
    decodeBuf colors.length (encodeInto colors buf) = colors.map rgbVal := by
  induction colors generalizing buf with
  | nil => simp [decodeBuf]
  | cons c cs ih =>
    have hRS : RGB_SIZE = 24 := rfl
    have hlen : 24 ≤ buf.length := by
      simp only [List.length_cons, hRS] at h
      omega
    have hb : buf ≠ [] := by
      intro he
      rw [he] at hlen
      simp at hlen
    rw [encodeInto_cons c cs buf hb]
    have htake : (buf.take RGB_SIZE).length = RGB_SIZE := by
      rw [List.length_take]
      omega
    have hchunk : (encodeChunk c (buf.take RGB_SIZE)).length = 24 := by
      rw [encodeChunk_length, htake, hRS]
    simp only [List.length_cons, decodeBuf, List.map_cons]
    rw [show (24 : Nat) = (encodeChunk c (buf.take RGB_SIZE)).length from hchunk.symm,
      List.take_left, List.drop_left]
    refine congrArg₂ _ (decodeLED_encodeChunk c _ htake) (ih _ ?_)
    rw [List.length_drop]
    simp only [List.length_cons, hRS] at h ⊢
    omega

theorem encodeInto_getD_of_ge (colors : List RGB8) (buf : List Nat) (i : Nat)
    (hcap : RGB_SIZE * colors.length ≤ buf.length)
    (hi : RGB_SIZE * colors.length ≤ i) :
    (encodeInto colors buf).getD i 0 = buf.getD i 0 := by
  induction colors generalizing buf i with
  | nil => rfl
  | cons c cs ih =>
    have hRS : RGB_SIZE = 24 := rfl
    have hlen : 24 ≤ buf.length := by
      simp only [List.length_cons, hRS] at hcap
      omega
    have hb : buf ≠ [] := by
      intro he
      rw [he] at hlen
      simp at hlen
    rw [encodeInto_cons c cs buf hb]
    have htake : (buf.take RGB_SIZE).length = RGB_SIZE := by
      rw [List.length_take]
      omega
    have hchunk : (encodeChunk c (buf.take RGB_SIZE)).length = 24 := by
      rw [encodeChunk_length, htake, hRS]
    have h24i : 24 ≤ i := by
      simp only [List.length_cons, hRS] at hi
      omega
    rw [List.getD_append_right _ _ _ _ (by omega)]
    rw [hchunk]
    rw [ih (buf.drop RGB_SIZE) (i - 24) ?hc ?hi2]
    case hc =>
      rw [List.length_drop]
      simp only [List.length_cons, hRS] at hcap ⊢
      omega
    case hi2 =>
      simp only [List.length_cons, hRS] at hi ⊢
      omega
    rw [List.getD_eq_getElem?_getD, List.getD_eq_getElem?_getD, List.getElem?_drop]
    congr 2
    omega

theorem encodeInto_truncates (colors : List RGB8) (buf : List Nat)
    (h24 : buf.length % RGB_SIZE = 0) :
    encodeInto colors buf = encodeInto (colors.take (buf.length / RGB_SIZE)) buf := by
  induction colors generalizing buf with
  | nil => simp
  | cons c cs ih =>
    have hRS : RGB_SIZE = 24 := rfl
    cases buf with
    | nil => simp [encodeInto]
    | cons x xs =>
      have hlen : 24 ≤ (x :: xs).length := by
        simp only [List.length_cons, hRS] at h24 ⊢
        omega
      have hdiv : (x :: xs).length / RGB_SIZE = ((x :: xs).drop RGB_SIZE).length / RGB_SIZE + 1 := by
        rw [List.length_drop]
        simp only [hRS] at h24 ⊢
        omega
      rw [hdiv, List.take_succ_cons, encodeInto_cons c cs _ (by simp),
        encodeInto_cons c _ _ (by simp), ih _ ?h24d]
      case h24d =>
        rw [List.length_drop]
        simp only [hRS] at h24 ⊢
        omega

example : to_ticks 400 = 6 := by decide
example : to_ticks 800 = 13 := by decide
example : to_ticks 1250 = 20 := by decide
example : RESET_TICKS = 4320 := by decide
example : ZERO_CODE = 0x8006 := by decide
example : ONE_CODE = 0x800D := by decide
example :
    encodeInto [⟨255, 0, 0⟩] (List.replicate 24 0) =
      List.replicate 8 ZERO_CODE ++ List.replicate 8 ONE_CODE ++
        List.replicate 8 ZERO_CODE := by decide
example :
    decodeBuf 1 (encodeInto [⟨7, 200, 31⟩] (List.replicate 24 0)) =
      [(7, 200, 31)] := by decide

/-! ### Claim theorems -/

/-- C2: for every color sequence of length L ≤ LED_count, decoding the
first 24·L slots of the encoded frame buffer (ONE_CODE ↦ 1, ZERO_CODE ↦ 0,
24 bits per LED, channel order green–red–blue, each channel MSB first)
recovers exactly the original L colors. -/
theorem c2_encode_decode_roundtrip (colors : List RGB8) (buf : List Nat)
    (h24 : buf.length % RGB_SIZE = 0)
    (hcap : colors.length ≤ buf.length / RGB_SIZE) :
    decodeBuf colors.length (encodeInto colors buf) = colors.map rgbVal := by
  refine decodeBuf_encodeInto colors buf ?_
  have hRS : RGB_SIZE = 24 := rfl
  rw [hRS] at h24 hcap ⊢
  omega

/-- Witness for C2 at a concrete input: two colors into a 2-LED buffer. -/
theorem c2_encode_decode_roundtrip_witness :
    (List.replicate 48 5 : List Nat).length % RGB_SIZE = 0 ∧
    ([⟨12, 34, 56⟩, ⟨255, 0, 200⟩] : List RGB8).length ≤
      (List.replicate 48 5 : List Nat).length / RGB_SIZE ∧
    decodeBuf ([⟨12, 34, 56⟩, ⟨255, 0, 200⟩] : List RGB8).length
        (encodeInto [⟨12, 34, 56⟩, ⟨255, 0, 200⟩] (List.replicate 48 5)) =
      List.map rgbVal [⟨12, 34, 56⟩, ⟨255, 0, 200⟩] :=
  ⟨by decide, by decide,
    c2_encode_decode_roundtrip [⟨12, 34, 56⟩, ⟨255, 0, 200⟩]
      (List.replicate 48 5) (by decide) (by decide)⟩

/-- C5: encoding L ≤ LED_count colors overwrites only the first 24·L
slots; every slot at index ≥ 24·L keeps exactly its prior value. -/
theorem c5_tail_slots_preserved (colors : List RGB8) (buf : List Nat) (i : Nat)
    (h24 : buf.length % RGB_SIZE = 0)
    (hcap : colors.length ≤ buf.length / RGB_SIZE)
    (hi : RGB_SIZE * colors.length ≤ i) :
    (encodeInto colors buf).getD i 0 = buf.getD i 0 := by
  refine encodeInto_getD_of_ge colors buf i ?_ hi
  have hRS : RGB_SIZE = 24 := rfl
  rw [hRS] at h24 hcap ⊢
  omega

/-- Witness for C5 at the scenario given in the spec: a 2-LED buffer pre-filled with
sentinel 7, one color encoded, slot 30 (inside slots 24–47) keeps the
sentinel. -/
theorem c5_tail_slots_preserved_witness :
    (List.replicate 48 7 : List Nat).length % RGB_SIZE = 0 ∧
    ([⟨255, 255, 255⟩] : List RGB8).length ≤
      (List.replicate 48 7 : List Nat).length / RGB_SIZE ∧
    RGB_SIZE * ([⟨255, 255, 255⟩] : List RGB8).length ≤ 30 ∧
    (encodeInto [⟨255, 255, 255⟩] (List.replicate 48 7)).getD 30 0 =
      (List.replicate 48 7 : List Nat).getD 30 0 :=
  ⟨by decide, by decide, by decide,
    c5_tail_slots_preserved [⟨255, 255, 255⟩] (List.replicate 48 7) 30
      (by decide) (by decide) (by decide)⟩

/-- C7: on a 1-LED buffer, black encodes to 24 ZERO_CODE entries, white to
24 ONE_CODE entries, pure red to 8 ZERO_CODE (green bits), 8 ONE_CODE (red
bits), 8 ZERO_CODE (blue bits); ZERO_CODE and ONE_CODE are the two duty
values OR-combined with the 0x8000 polarity marker. -/
theorem c7_concrete_encodings :
    encodeInto [⟨0, 0, 0⟩] (List.replicate 24 0) = List.replicate 24 ZERO_CODE ∧
    encodeInto [⟨255, 255, 255⟩] (List.replicate 24 0) = List.replicate 24 ONE_CODE ∧
    encodeInto [⟨255, 0, 0⟩] (List.replicate 24 0) =
      List.replicate 8 ZERO_CODE ++ List.replicate 8 ONE_CODE ++
        List.replicate 8 ZERO_CODE ∧
    ZERO_CODE = to_ticks T0H_NS % 2 ^ 16 ||| 0x8000 ∧
    ONE_CODE = to_ticks T1H_NS % 2 ^ 16 ||| 0x8000 := by
  refine ⟨by decide, by decide, by decide, rfl, rfl⟩

/-- C4: both write variants wait exactly
`delay_us = ceil(LED_count × 24 × 1250 / 1000) + 270` microseconds (for
every LED count whose nanosecond total fits in u32), and the computed
delay for 8 LEDs is at least 510 µs. -/
theorem c4_delay_exact :
    (∀ l, l * 30000 < 2 ^ 32 →
      Strip.delay_micros l = (l * 24 * 1250 + 999) / 1000 + 270 ∧
      Embassy.delay_micros (24 * l) = (l * 24 * 1250 + 999) / 1000 + 270) ∧
    (∀ colors s r s1 a, Strip.writeSync true colors s = some (r, s1, a) →
      a.waited_us = some (Strip.delay_micros s.num_leds)) ∧
    (∀ colors s r s1 a, Strip.writeAsync true colors s = some (r, s1, a) →
      a.waited_us = some (Strip.delay_micros s.num_leds)) ∧
    (∀ colors s r s1 a, Embassy.writeSync true colors s = some (r, s1, a) →
      a.waited_us = some (Embassy.delay_micros s.buf.length)) ∧
    (∀ colors s r s1 a, Embassy.writeAsync true colors s = some (r, s1, a) →
      a.waited_us = some (Embassy.delay_micros s.buf.length)) ∧
    510 ≤ Strip.delay_micros 8 ∧ 510 ≤ Embassy.delay_micros (24 * 8) := by
  refine ⟨fun l h => ?_, ?_, ?_, ?_, ?_, by decide, by decide⟩
  · constructor
    · have e1 : l * RGB_SIZE % 2 ^ 32 = l * 24 := by
        simp only [RGB_SIZE]
        omega
      have e2 : l * 24 * 1250 % 2 ^ 32 = l * 24 * 1250 := by omega
      simp only [Strip.delay_micros, FRAME_NS, RESET_TIME, e1, e2]
      omega
    · have e1 : 24 * l % 2 ^ 32 = l * 24 := by omega
      have e2 : l * 24 * 1250 % 2 ^ 32 = l * 24 * 1250 := by omega
      simp only [Embassy.delay_micros, FRAME_NS, RESET_TIME, e1, e2]
      omega
  · intro colors s r s1 a h
    cases hbuf : s.buf with
    | none => simp [Strip.writeSync, Strip.take_buffer, hbuf] at h
    | some b =>
      cases hpwm : s.pwm with
      | none => simp [Strip.writeSync, Strip.take_buffer, hbuf, hpwm] at h
      | some u =>
        simp [Strip.writeSync, Strip.take_buffer, hbuf, hpwm] at h
        rw [← h.2.2]
  · intro colors s r s1 a h
    cases hbuf : s.buf with
    | none => simp [Strip.writeAsync, Strip.take_buffer, hbuf] at h
    | some b =>
      cases hpwm : s.pwm with
      | none => simp [Strip.writeAsync, Strip.take_buffer, hbuf, hpwm] at h
      | some u =>
        simp [Strip.writeAsync, Strip.take_buffer, hbuf, hpwm] at h
        rw [← h.2.2]
  · intro colors s r s1 a h
    cases hpwm : s.pwm with
    | none => simp [Embassy.writeSync, Embassy.write_buffer, hpwm] at h
    | some u =>
      simp [Embassy.writeSync, Embassy.write_buffer, hpwm] at h
      rw [← h.2.2]
      simp [encodeInto_length]
  · intro colors s r s1 a h
    cases hpwm : s.pwm with
    | none => simp [Embassy.writeAsync, Embassy.write_buffer, hpwm] at h
    | some u =>
      simp [Embassy.writeAsync, Embassy.write_buffer, hpwm] at h
      rw [← h.2.2]
      simp [encodeInto_length]

/-- Witness for C4 at LED count 8: the computed delay is 510 µs. -/
theorem c4_delay_exact_witness :
    8 * 30000 < 2 ^ 32 ∧
    Strip.delay_micros 8 = (8 * 24 * 1250 + 999) / 1000 + 270 ∧
    Embassy.delay_micros (24 * 8) = (8 * 24 * 1250 + 999) / 1000 + 270 :=
  ⟨by decide, c4_delay_exact.1 8 (by decide)⟩

/-- C6: `to_ticks` computes the half-up rounding of `ns × 16 / 1000`
(for every ns with no u32 overflow), and in particular
`to_ticks 400 = 6`, `to_ticks 800 = 13`, `to_ticks 1250 = 20`, and the
reset-gap tick count `to_ticks 270000 = 4320`. -/
theorem c6_to_ticks_half_up :
    (∀ ns, ns * PWM_CLOCK + 500 < 2 ^ 32 →
      to_ticks ns = roundHalfUp (ns * PWM_CLOCK) 1000) ∧
    to_ticks 400 = 6 ∧ to_ticks 800 = 13 ∧ to_ticks 1250 = 20 ∧
    to_ticks 270000 = 4320 ∧ RESET_TICKS = 4320 := by
  refine ⟨fun ns h => ?_, by decide, by decide, by decide, by decide, by decide⟩
  simp only [to_ticks, roundHalfUp, PWM_CLOCK] at h ⊢
  split <;> omega

/-- Witness for C6 at ns = 400. -/
theorem c6_to_ticks_half_up_witness :
    400 * PWM_CLOCK + 500 < 2 ^ 32 ∧
    to_ticks 400 = roundHalfUp (400 * PWM_CLOCK) 1000 :=
  ⟨by decide, c6_to_ticks_half_up.1 400 (by decide)⟩

/-- C8: abstracting over the wait primitive, the blocking and suspending
write variants are equal functions in both crates — same panic behavior,
same result, same final state, same encoded buffer, sequence config,
trigger mode and computed delay. -/
theorem c8_sync_async_equivalent :
    (∀ trigger colors s, Strip.writeSync trigger colors s = Strip.writeAsync trigger colors s) ∧
    (∀ trigger colors s, Embassy.writeSync trigger colors s = Embassy.writeAsync trigger colors s) :=
  ⟨fun _ _ _ => rfl, fun _ _ _ => rfl⟩

/-- C9: construction asserts that the capacity N is a multiple of 24 —
for every other N it panics, and for every multiple of 24 (with the
hardware configuring successfully) it returns a driver whose buffer
capacity is that multiple of 24. -/
theorem c9_new_capacity_assertion :
    (∀ n pwmOk, n % RGB_SIZE ≠ 0 → Strip.new n pwmOk = none) ∧
    (∀ pwmOk (buf : List Nat), buf.length % RGB_SIZE ≠ 0 → Embassy.new pwmOk buf = none) ∧
    (∀ n, n % RGB_SIZE = 0 →
      ∃ s, Strip.new n true = some s ∧ s.num_leds = n / RGB_SIZE ∧
        ∃ b, s.buf = some b ∧ b.length = n ∧ b.length % RGB_SIZE = 0) ∧
    (∀ buf : List Nat, buf.length % RGB_SIZE = 0 →
      ∃ s, Embassy.new true buf = some s ∧ s.buf = buf ∧
        s.buf.length % RGB_SIZE = 0) := by
  refine ⟨fun n pwmOk h => ?_, fun pwmOk buf h => ?_, fun n h => ?_, fun buf h => ?_⟩
  · simp [Strip.new, h]
  · simp [Embassy.new, h]
  · exact ⟨{ num_leds := n / RGB_SIZE, pwm := some (), buf := some (List.replicate n 0) },
      by simp [Strip.new, h], rfl, List.replicate n 0, rfl, by simp, by simp [h]⟩
  · exact ⟨{ pwm := some (), buf := buf }, by simp [Embassy.new, h], rfl, h⟩

/-- Witness for C9: capacity 25 is rejected in both crates; capacity 48
is accepted and yields a 48-slot buffer. -/
theorem c9_new_capacity_assertion_witness :
    (25 % RGB_SIZE ≠ 0 ∧ Strip.new 25 true = none) ∧
    ((List.replicate 25 0 : List Nat).length % RGB_SIZE ≠ 0 ∧
      Embassy.new true (List.replicate 25 0) = none) ∧
    (48 % RGB_SIZE = 0 ∧
      ∃ s, Strip.new 48 true = some s ∧ s.num_leds = 48 / RGB_SIZE ∧
        ∃ b, s.buf = some b ∧ b.length = 48 ∧ b.length % RGB_SIZE = 0) :=
  ⟨⟨by decide, c9_new_capacity_assertion.1 25 true (by decide)⟩,
   ⟨by decide, c9_new_capacity_assertion.2.1 true (List.replicate 25 0) (by decide)⟩,
   ⟨by decide, c9_new_capacity_assertion.2.2.1 48 (by decide)⟩⟩

/-- C10: when the input yields more colors than the LED capacity N/24,
the encoder writes exactly the first N/24 colors (the zip with the buffer
chunks silently drops the excess), stays within the N slots (the result
has exactly the length of the buffer — the encoder is a total function, no
out-of-bounds access and no failure), and the written prefix decodes to
exactly those first N/24 colors. -/
theorem c10_excess_colors_ignored (colors : List RGB8) (buf : List Nat)
    (h24 : buf.length % RGB_SIZE = 0)
    (hex : buf.length / RGB_SIZE < colors.length) :
    encodeInto colors buf = encodeInto (colors.take (buf.length / RGB_SIZE)) buf ∧
    (encodeInto colors buf).length = buf.length ∧
    (colors.take (buf.length / RGB_SIZE)).length = buf.length / RGB_SIZE ∧
    decodeBuf (buf.length / RGB_SIZE) (encodeInto colors buf) =
      (colors.take (buf.length / RGB_SIZE)).map rgbVal := by
  have hRS : RGB_SIZE = 24 := rfl
  have htrunc := encodeInto_truncates colors buf h24
  have htl : (colors.take (buf.length / RGB_SIZE)).length = buf.length / RGB_SIZE := by
    rw [List.length_take]
    omega
  refine ⟨htrunc, encodeInto_length colors buf, htl, ?_⟩
  have hrt := decodeBuf_encodeInto (colors.take (buf.length / RGB_SIZE)) buf
    (by rw [htl, hRS] at *; omega)
  rw [htl] at hrt
  rw [htrunc]
  exact hrt

/-- Witness for C10: three colors into a 2-LED (48-slot) buffer — the
third color is dropped, the first two are encoded. -/
theorem c10_excess_colors_ignored_witness :
    (List.replicate 48 0 : List Nat).length % RGB_SIZE = 0 ∧
    (List.replicate 48 0 : List Nat).length / RGB_SIZE <
      ([⟨1, 2, 3⟩, ⟨4, 5, 6⟩, ⟨7, 8, 9⟩] : List RGB8).length ∧
    encodeInto [⟨1, 2, 3⟩, ⟨4, 5, 6⟩, ⟨7, 8, 9⟩] (List.replicate 48 0) =
      encodeInto (([⟨1, 2, 3⟩, ⟨4, 5, 6⟩, ⟨7, 8, 9⟩] : List RGB8).take
        ((List.replicate 48 0 : List Nat).length / RGB_SIZE)) (List.replicate 48 0) :=
  ⟨by decide, by decide,
    (c10_excess_colors_ignored [⟨1, 2, 3⟩, ⟨4, 5, 6⟩, ⟨7, 8, 9⟩]
      (List.replicate 48 0) (by decide) (by decide)).1⟩

/-- C1 evaluated at the failing input: when the trigger is rejected, the
strip-crate write returns the error but leaves both `pwm` and `buf` as
`none` (the early `?` return drops them instead of storing them back),
and the embassy-crate write leaves `pwm` as `none`; in both crates the
next write on the same driver then panics (modelled as `none`) when
taking the handle — contradicting the claim that the driver state again
holds handle and buffer whenever write returns. -/
theorem c1_trigger_rejection_bricks_driver :
    (Strip.writeSync false [⟨1, 2, 3⟩] ⟨1, some (), some (List.replicate 24 0)⟩).map
        (fun x => (x.1, x.2.1.pwm, x.2.1.buf)) =
      some (Except.error PwmError.triggerRejected, none, none) ∧
    ((Strip.writeSync false [⟨1, 2, 3⟩] ⟨1, some (), some (List.replicate 24 0)⟩).bind
        fun x => Strip.writeSync true [⟨1, 2, 3⟩] x.2.1) = none ∧
    (Embassy.writeSync false [⟨1, 2, 3⟩] ⟨some (), List.replicate 24 0⟩).map
        (fun x => (x.1, x.2.1.pwm)) =
      some (Except.error PwmError.triggerRejected, none) ∧
    ((Embassy.writeSync false [⟨1, 2, 3⟩] ⟨some (), List.replicate 24 0⟩).bind
        fun x => Embassy.writeSync true [⟨1, 2, 3⟩] x.2.1) = none := by
  refine ⟨rfl, rfl, rfl, rfl⟩

/-- C3 evaluated at the failing input: on trigger rejection the
embassy-crate write returns the error and its driver-held buffer does
contain the newly encoded (changed) content, but the strip-crate write
drops the encoded buffer — its driver-held buffer slot is left empty, so
the claimed property that the frame buffer already contains the newly
encoded content fails for the strip crate. -/
theorem c3_error_buffer_content :
    (Embassy.writeSync false [⟨9, 8, 7⟩] ⟨some (), List.replicate 24 3⟩).map
        (fun x => (x.1, x.2.1.buf)) =
      some (Except.error PwmError.triggerRejected,
        encodeInto [⟨9, 8, 7⟩] (List.replicate 24 3)) ∧
    encodeInto [⟨9, 8, 7⟩] (List.replicate 24 3) ≠ List.replicate 24 3 ∧
    (Strip.writeSync false [⟨9, 8, 7⟩] ⟨1, some (), some (List.replicate 24 3)⟩).map
        (fun x => (x.1, x.2.1.buf)) =
      some (Except.error PwmError.triggerRejected, none) := by
  refine ⟨rfl, by decide, rfl⟩
